import Mathlib

/-!
Verification development for the QuickRupee voice-bot screening engine.

The definitions below are a shallow embedding of the TypeScript source:
`src/engine/validators.ts` (validators), the conversation state machine
module, `src/session/call-session.ts` (orchestrator fragments needed for
interim handling and teardown) and `src/stt/deepgram-client.ts`
(reconnection backoff).  JavaScript strings are modelled as Lean
`String`, JS `number` confidences as `ℚ`, integer salaries as `Nat`,
`null` as `Option.none`, and the `Math.random()` draw used for
micro-acknowledgements as an explicit `pick : Nat` argument.
-/

namespace VB

/- ════════ String helpers (JS semantics on the ASCII inputs used here) ════════ -/

/-- JS `\s` whitespace class (ASCII fragment). -/
def isSpaceChar (c : Char) : Bool := c.isWhitespace

/-- JS `\w` word-character class `[A-Za-z0-9_]`. -/
def isWordChar (c : Char) : Bool := c.isAlphanum || c = '_'

/-- JS `String.prototype.toLowerCase` (ASCII fragment). -/
def toLowerStr (s : String) : String := ⟨s.data.map Char.toLower⟩

/-- JS `String.prototype.trim`: strip leading and trailing whitespace. -/
def trimStr (s : String) : String :=
  ⟨((s.data.dropWhile isSpaceChar).reverse.dropWhile isSpaceChar).reverse⟩

/-- Contiguous-sublist check used for JS `includes`. -/
def listIsInfixOf (needle : List Char) : List Char → Bool
  | [] => needle.isEmpty
  | c :: cs => needle.isPrefixOf (c :: cs) || listIsInfixOf needle cs

/-- JS `haystack.includes(needle)`. -/
def strIncludes (haystack needle : String) : Bool :=
  listIsInfixOf needle.data haystack.data

/-- Splitting by `/[\s,]+/` as used by the salary and location code.
Empty tokens (possible in JS when the string starts with a separator)
are dropped here; every consumer in the source skips them anyway
(undefined word lookup, `word.length < 3`). -/
def splitWordsAux : List Char → List Char → List String
  | [], acc => if acc.isEmpty then [] else [⟨acc.reverse⟩]
  | c :: cs, acc =>
      if isSpaceChar c || c = ',' then
        if acc.isEmpty then splitWordsAux cs []
        else (⟨acc.reverse⟩ : String) :: splitWordsAux cs []
      else splitWordsAux cs (c :: acc)

def splitWords (s : String) : List String := splitWordsAux s.data []

/-- Value of a digit string, as computed by `parseInt` on a digit-only string. -/
def natOfDigits (l : List Char) : Nat :=
  l.foldl (fun acc c => acc * 10 + (c.toNat - 48)) 0

/-- Levenshtein distance (fuel-based so that it reduces by `rfl`/`decide`;
the fuel `|a| + |b|` is always sufficient). Mirrors `fastest-levenshtein`. -/
def levAux : Nat → List Char → List Char → Nat
  | _, [], ys => ys.length
  | _, x :: xs, [] => (x :: xs).length
  | 0, _, _ => 0
  | fuel + 1, x :: xs, y :: ys =>
      if x = y then levAux fuel xs ys
      else 1 + min (levAux fuel xs (y :: ys)) (min (levAux fuel (x :: xs) ys) (levAux fuel xs ys))

def lev (a b : List Char) : Nat := levAux (a.length + b.length) a b

/- ════════ 1. Employment validator ════════ -/

/-- Phrases of `YES_PATTERN` (anchored, case-insensitive; input is lowercased first). -/
def YES_WORDS : List String :=
  ["yes", "yeah", "yep", "yup", "correct", "right", "haan", "ha", "ji", "ji haan",
   "sure", "absolutely", "definitely", "of course", "that\x27s right"]

/-- Phrases of `NO_PATTERN`. -/
def NO_WORDS : List String :=
  ["no", "nope", "nah", "not", "nahin", "nahi", "no way", "not really", "negative"]

def SALARIED_KEYWORDS : List String :=
  ["salaried", "employed", "job", "work", "salary", "company",
   "working", "employee", "office", "corporate", "mnc",
   "private sector", "government", "govt"]

def NON_SALARIED_KEYWORDS : List String :=
  ["self-employed", "self employed", "business", "freelance", "freelancer",
   "entrepreneur", "own business", "startup", "contract", "consultant",
   "unemployed", "retired", "student", "housewife", "homemaker"]

/-- Embeds `EmploymentValidator.validate`: `true` salaried, `false` not, `none` ambiguous. -/
def employmentValidate (transcript : String) : Option Bool :=
  let normalized := trimStr (toLowerStr transcript)
  if YES_WORDS.contains normalized then some true
  else if NO_WORDS.contains normalized then some false
  else
    let hasSalaried := SALARIED_KEYWORDS.any (fun kw => strIncludes normalized kw)
    let hasNonSalaried := NON_SALARIED_KEYWORDS.any (fun kw => strIncludes normalized kw)
    if hasSalaried && !hasNonSalaried then some true
    else if hasNonSalaried && !hasSalaried then some false
    else none

/- ════════ 2. Salary parsing ════════ -/

def SALARY_MIN : Nat := 1000
def SALARY_MAX : Nat := 10000000

/-- Word-to-number table `WORD_TO_NUMBER`. -/
def WORD_TO_NUMBER : List (String × Nat) :=
  [("zero", 0), ("one", 1), ("two", 2), ("three", 3), ("four", 4), ("five", 5),
   ("six", 6), ("seven", 7), ("eight", 8), ("nine", 9), ("ten", 10),
   ("eleven", 11), ("twelve", 12), ("thirteen", 13), ("fourteen", 14), ("fifteen", 15),
   ("sixteen", 16), ("seventeen", 17), ("eighteen", 18), ("nineteen", 19),
   ("twenty", 20), ("thirty", 30), ("forty", 40), ("fifty", 50),
   ("sixty", 60), ("seventy", 70), ("eighty", 80), ("ninety", 90),
   ("hundred", 100), ("thousand", 1000), ("lakh", 100000), ("lac", 100000), ("lakhs", 100000)]

/-- Models `Math.round (numer / denom)` for non-negative rationals: half rounds up. -/
def jsRound (numer denom : Nat) : Nat := (2 * numer + denom) / (2 * denom)

/-- Leftmost maximal digit run of the text and the remainder after it. -/
def firstDigitRunSplit : List Char → Option (List Char × List Char)
  | [] => none
  | c :: cs =>
      if c.isDigit then some ((c :: cs).takeWhile Char.isDigit, (c :: cs).dropWhile Char.isDigit)
      else firstDigitRunSplit cs

/-- Digits collected by the greedy `(?:,\d{3})*` loop: each step consumes a comma
followed by exactly three digits. -/
def commaGroups : List Char → List Char
  | ',' :: a :: b :: c :: rest =>
      if a.isDigit && b.isDigit && c.isDigit then a :: b :: c :: commaGroups rest else []
  | _ => []

/-- Strategy 1 `extractDirect`: first match of `/₹?\s*(\d{1,3}(?:,\d{3})*|\d{4,7})/`.
JS alternation is leftmost-first, so at the first digit the engine takes the
`\d{1,3}(?:,\d{3})*` branch: up to three digits greedily, then comma groups.
The capture with commas removed is exactly `take 3` of the run plus `commaGroups`. -/
def extractDirect (text : List Char) : Option Nat :=
  match firstDigitRunSplit text with
  | none => none
  | some (run, rest) =>
      let groupDigits := run.take 3 ++ commaGroups (run.drop 3 ++ rest)
      let num := natOfDigits groupDigits
      if SALARY_MIN ≤ num ∧ num ≤ SALARY_MAX then some num else none

/-- Boundary `\b` after a word character: the next character must not be a word character. -/
def wordBoundaryOk : List Char → Bool
  | [] => true
  | c :: _ => !isWordChar c

/-- Try the body of `/(\d+(?:\.\d+)?)\s*k\b/i` at one position.  Returns the
captured `(intPart, fracPart)` iff the whole pattern matches starting here.
Backtracking into shorter digit runs can never rescue a failed match
(the character after a shortened run is a digit, which neither `\s*`
nor `k` accepts), so greedy maximal runs are exact. -/
def kShortAt (l : List Char) : Option (List Char × List Char) :=
  match l with
  | [] => none
  | c :: _ =>
      if !c.isDigit then none
      else
        let ip := l.takeWhile Char.isDigit
        let r1 := l.dropWhile Char.isDigit
        let fpr : List Char × List Char :=
          match r1 with
          | '.' :: r => if (r.takeWhile Char.isDigit).isEmpty then ([], r1)
                        else (r.takeWhile Char.isDigit, r.dropWhile Char.isDigit)
          | _ => ([], r1)
        let r3 := fpr.2.dropWhile isSpaceChar
        match r3 with
        | 'k' :: r4 => if wordBoundaryOk r4 then some (ip, fpr.1) else none
        | _ => none

/-- Scan all start positions left to right with a per-position matcher. -/
def scanPositions (f : List Char → Option α) : List Char → Option α
  | [] => none
  | c :: cs =>
      match f (c :: cs) with
      | some v => some v
      | none => scanPositions f cs

/-- Value `parseFloat("ip.fp") * mult`, rounded as `Math.round` (exact rational rounding;
the source goes through binary floating point, identical on realistic inputs). -/
def scaledValue (ip fp : List Char) (mult : Nat) : Nat :=
  jsRound ((natOfDigits ip * 10 ^ fp.length + natOfDigits fp) * mult) (10 ^ fp.length)

/-- Strategy 2 `extractKShorthand`: `/(\d+(?:\.\d+)?)\s*k\b/i`, value ×1000. -/
def extractKShorthand (text : List Char) : Option Nat :=
  match scanPositions kShortAt text with
  | none => none
  | some (ip, fp) =>
      let num := scaledValue ip fp 1000
      if SALARY_MIN ≤ num ∧ num ≤ SALARY_MAX then some num else none

/-- One alternative of `(?:lakh|lac|lakhs)\b`: keyword plus word boundary. -/
def lakhWordOk (w : String) (l : List Char) : Bool :=
  w.data.isPrefixOf l && wordBoundaryOk (l.drop w.length)

/-- Try `/(\d+(?:\.\d+)?)\s*(?:lakh|lac|lakhs)\b/i` at one position.  The regex
succeeds here iff some alternative matches with the boundary (`lakh` fails the
boundary before an `s`, and backtracking then reaches `lakhs`). -/
def lakhAt (l : List Char) : Option (List Char × List Char) :=
  match l with
  | [] => none
  | c :: _ =>
      if !c.isDigit then none
      else
        let ip := l.takeWhile Char.isDigit
        let r1 := l.dropWhile Char.isDigit
        let fpr : List Char × List Char :=
          match r1 with
          | '.' :: r => if (r.takeWhile Char.isDigit).isEmpty then ([], r1)
                        else (r.takeWhile Char.isDigit, r.dropWhile Char.isDigit)
          | _ => ([], r1)
        let r3 := fpr.2.dropWhile isSpaceChar
        if lakhWordOk ("lakh") r3 || lakhWordOk ("lac") r3 || lakhWordOk ("lakhs") r3 then
          some (ip, fpr.1)
        else none

/-- Strategy 3 `extractLakhShorthand`: value ×100000. -/
def extractLakhShorthand (text : List Char) : Option Nat :=
  match scanPositions lakhAt text with
  | none => none
  | some (ip, fp) =>
      let num := scaledValue ip fp 100000
      if SALARY_MIN ≤ num ∧ num ≤ SALARY_MAX then some num else none

/-- The accumulator loop of `extractWordToNumber`, state `(total, current, hasNumericWord)`. -/
def w2nLoop : List String → Nat → Nat → Bool → Nat × Nat × Bool
  | [], total, current, has => (total, current, has)
  | w :: ws, total, current, has =>
      match WORD_TO_NUMBER.lookup w with
      | none => w2nLoop ws total current has
      | some value =>
          if value = 100 then
            w2nLoop ws total ((if current = 0 then 1 else current) * 100) true
          else if 1000 ≤ value then
            w2nLoop ws (total + (if current = 0 then 1 else current) * value) 0 true
          else
            w2nLoop ws total (current + value) true

/-- Strategy 4 `extractWordToNumber`. -/
def extractWordToNumber (text : String) : Option Nat :=
  let r := w2nLoop (splitWords text) 0 0 false
  let total := r.1 + r.2.1
  if !r.2.2 || total = 0 then none
  else if SALARY_MIN ≤ total ∧ total ≤ SALARY_MAX then some total
  else none

/-- Tail of contextual pattern 1 after the captured digits: `\s*k?\b`.
The match point can sit right after the digits (optionally taking a `k`),
or after the full whitespace run (a space is a non-word character, so the
boundary there needs a following word character, or a `k` taken with a
non-word character after it).  Intermediate positions inside the
whitespace run never form a boundary. -/
def ctxTailOk (r : List Char) : Bool :=
  let rs := r.dropWhile isSpaceChar
  wordBoundaryOk r ||
  (match r with
   | 'k' :: r4 => wordBoundaryOk r4
   | _ => false) ||
  (!(r.takeWhile isSpaceChar).isEmpty &&
    (match rs with
     | 'k' :: r4 => wordBoundaryOk r4
     | c :: _ => isWordChar c
     | [] => false))

/-- Optional `(?:around|about|approximately)?` words (mutually exclusive prefixes). -/
def APPROX_WORDS : List String := ["around", "about", "approximately"]

/-- After the introducing keyword: `\s*(?:around|about|approximately)?\s*₹?\s*(\d+)` then `\s*k?\b`.
Greedy whitespace runs are exact here (a shortened run exposes a whitespace
character that no later pattern element accepts), and a shortened digit run
exposes a digit that fails the tail, so the capture is the maximal run. -/
def ctxDigitsAt (l : List Char) : Option (List Char) :=
  let l1 := l.dropWhile isSpaceChar
  let l2 := match l1 with
    | '₹' :: r => r.dropWhile isSpaceChar
    | _ => l1
  let ip := l2.takeWhile Char.isDigit
  if ip.isEmpty then none
  else if ctxTailOk (l2.dropWhile Char.isDigit) then some ip else none

/-- Body after an approx-word choice: try with the word consumed first (greedy),
then without, mirroring regex backtracking on the optional group. -/
def ctxAfterKeyword (l : List Char) : Option (List Char) :=
  let l1 := l.dropWhile isSpaceChar
  match APPROX_WORDS.find? (fun w => w.data.isPrefixOf l1) with
  | some w =>
      match ctxDigitsAt (l1.drop w.length) with
      | some ip => some ip
      | none => ctxDigitsAt l1
  | none => ctxDigitsAt l1

/-- Compound keywords `salary\s+is` / `income\s+is`. -/
def compoundKeywordAt (word : String) (l : List Char) : Option (List Char) :=
  if word.data.isPrefixOf l then
    let r := l.drop word.length
    let ws := r.takeWhile isSpaceChar
    if ws.isEmpty then none
    else
      let r2 := r.dropWhile isSpaceChar
      if ("is" : String).data.isPrefixOf r2 then some (r2.drop 2) else none
  else none

/-- One position of contextual pattern 1:
`/(?:earn|make|get|salary\s+is|income\s+is)\s*(?:around|about|approximately)?\s*₹?\s*(\d+)\s*k?\b/i`.
The five keyword alternatives have pairwise distinct first letters, so at most
one applies at a position. -/
def ctxPattern1At (l : List Char) : Option (List Char) :=
  if ("earn" : String).data.isPrefixOf l then ctxAfterKeyword (l.drop 4)
  else if ("make" : String).data.isPrefixOf l then ctxAfterKeyword (l.drop 4)
  else if ("get" : String).data.isPrefixOf l then ctxAfterKeyword (l.drop 3)
  else
    match compoundKeywordAt ("salary") l with
    | some r => ctxAfterKeyword r
    | none =>
        match compoundKeywordAt ("income") l with
        | some r => ctxAfterKeyword r
        | none => none

/-- One position of contextual pattern 2:
`/(\d+)\s*(?:thousand|k)\s*(?:rupees|per\s+month|monthly)?/i` — the trailing
optional group never fails, so only digits + whitespace + `thousand`/`k` matter. -/
def ctxPattern2At (l : List Char) : Option (List Char) :=
  match l with
  | [] => none
  | c :: _ =>
      if !c.isDigit then none
      else
        let ip := l.takeWhile Char.isDigit
        let r := (l.dropWhile Char.isDigit).dropWhile isSpaceChar
        if ("thousand" : String).data.isPrefixOf r || ("k" : String).data.isPrefixOf r then
          some ip
        else none

/-- Post-processing shared by both contextual patterns: scale sub-1000 values
when the whole text mentions `k` or `thousand`, then range-check.  An
out-of-range match falls through to the next pattern (the source only
returns from inside the range check). -/
def ctxValue (text : String) (ip : List Char) : Option Nat :=
  let num := natOfDigits ip
  let num := if (strIncludes text ("k") || strIncludes text ("thousand")) ∧ num < 1000 then
      num * 1000
    else num
  if SALARY_MIN ≤ num ∧ num ≤ SALARY_MAX then some num else none

/-- Strategy 5 `extractContextual`. -/
def extractContextual (text : String) : Option Nat :=
  match scanPositions ctxPattern1At text.data with
  | some ip =>
      match ctxValue text ip with
      | some num => some num
      | none =>
          match scanPositions ctxPattern2At text.data with
          | some ip2 => ctxValue text ip2
          | none => none
  | none =>
      match scanPositions ctxPattern2At text.data with
      | some ip2 => ctxValue text ip2
      | none => none

/-- Embeds `SalaryParser.parse`: the five strategies in priority order over the
lowercased, trimmed transcript. -/
def salaryParse (transcript : String) : Option Nat :=
  let normalized := trimStr (toLowerStr transcript)
  match extractDirect normalized.data with
  | some v => some v
  | none =>
      match extractKShorthand normalized.data with
      | some v => some v
      | none =>
          match extractLakhShorthand normalized.data with
          | some v => some v
          | none =>
              match extractWordToNumber normalized with
              | some v => some v
              | none => extractContextual normalized

/-- Embeds `SalaryParser.parseDTMF`: strip non-digits, parse the literal integer,
apply the same `[SALARY_MIN, SALARY_MAX]` sanity range. -/
def salaryParseDTMF (digits : String) : Option Nat :=
  let cleaned := digits.data.filter Char.isDigit
  if cleaned.isEmpty then none
  else
    let num := natOfDigits cleaned
    if SALARY_MIN ≤ num ∧ num ≤ SALARY_MAX then some num else none

/- ════════ 3. Location matching ════════ -/

def METRO_CITIES : List String := ["delhi", "mumbai", "bangalore"]

/-- Alias table `CITY_ALIASES` in `Object.entries` (insertion) order. -/
def CITY_ALIASES : List (String × String) :=
  [("new delhi", "delhi"), ("ncr", "delhi"), ("delhi ncr", "delhi"),
   ("noida", "delhi"), ("gurgaon", "delhi"), ("gurugram", "delhi"),
   ("faridabad", "delhi"), ("ghaziabad", "delhi"),
   ("bombay", "mumbai"), ("navi mumbai", "mumbai"), ("thane", "mumbai"),
   ("bengaluru", "bangalore"), ("blr", "bangalore"), ("bangaluru", "bangalore")]

def MAX_FUZZY_DISTANCE : Nat := 2

/-- Direct substring match against the metro cities. -/
def matchDirect (normalized : String) : Option String :=
  METRO_CITIES.find? (fun city => strIncludes normalized city)

/-- Alias substring match. -/
def matchAlias (normalized : String) : Option String :=
  (CITY_ALIASES.find? (fun p => strIncludes normalized p.1)).map Prod.snd

/-- Fuzzy: a word within edit distance 2 of a metro city. -/
def fuzzyMetro (word : String) : Option String :=
  METRO_CITIES.find? (fun city => decide (lev word.data city.data ≤ MAX_FUZZY_DISTANCE))

/-- Fuzzy: a word within edit distance 2 of a single-word alias key
(`alias.split(' ').length === 1` ↔ the alias contains no space). -/
def fuzzyAlias (word : String) : Option String :=
  (CITY_ALIASES.find? (fun p =>
      !(p.1.data.contains ' ') && decide (lev word.data p.1.data ≤ MAX_FUZZY_DISTANCE))).map
    Prod.snd

/-- The fuzzy loop over words: skip words shorter than 3 characters, check the
metro cities, then the alias keys. -/
def matchFuzzy : List String → Option String
  | [] => none
  | w :: ws =>
      if w.length < 3 then matchFuzzy ws
      else
        match fuzzyMetro w with
        | some c => some c
        | none =>
            match fuzzyAlias w with
            | some c => some c
            | none => matchFuzzy ws

/-- Embeds `LocationMatcher.match`: direct, alias, then fuzzy over words. -/
def locationMatch (transcript : String) : Option String :=
  let normalized := trimStr (toLowerStr transcript)
  match matchDirect normalized with
  | some c => some c
  | none =>
      match matchAlias normalized with
      | some c => some c
      | none => matchFuzzy (splitWords normalized)

/-- Embeds `LocationMatcher.isEligible`. -/
def isEligible (location : String) : Bool :=
  METRO_CITIES.contains (toLowerStr location)

/- ════════ Conversation state machine ════════ -/

/-- The closed 9-value `ConversationState` enum. -/
inductive ConversationState where
  | GREETING
  | ASK_EMPLOYMENT
  | ASK_SALARY
  | ASK_LOCATION
  | ELIGIBLE_CONFIRMATION
  | REJECTION
  | CLARIFICATION
  | DTMF_FALLBACK
  | ENDED
deriving DecidableEq, Repr

/-- The string value of the enum member (used in the fail-loudly message). -/
def stateName : ConversationState → String
  | .GREETING => "GREETING"
  | .ASK_EMPLOYMENT => "ASK_EMPLOYMENT"
  | .ASK_SALARY => "ASK_SALARY"
  | .ASK_LOCATION => "ASK_LOCATION"
  | .ELIGIBLE_CONFIRMATION => "ELIGIBLE_CONFIRMATION"
  | .REJECTION => "REJECTION"
  | .CLARIFICATION => "CLARIFICATION"
  | .DTMF_FALLBACK => "DTMF_FALLBACK"
  | .ENDED => "ENDED"

structure EligibilityData where
  isSalaried : Option Bool
  salary : Option Nat
  location : Option String
deriving DecidableEq, Repr

structure TranscriptTurn where
  turnId : String
  speaker : String
  text : String
  confidence : ℚ
  timestamp : Nat
  state : ConversationState
deriving DecidableEq, Repr

structure ConversationContext where
  callId : String
  phoneNumber : String
  currentState : ConversationState
  previousState : Option ConversationState
  eligibility : EligibilityData
  turnCount : Nat
  clarificationAttempts : Nat
  transcript : List TranscriptTurn
  isBotSpeaking : Bool
  currentTurnStartNs : Int
  rejectionReason : Option String
deriving DecidableEq, Repr

/-- Error type `EngineError` (message and machine-readable code). -/
structure EngineError where
  message : String
  code : String
deriving DecidableEq, Repr

structure StateMachineResult where
  response : String
  shouldEnd : Bool
  newState : ConversationState
deriving DecidableEq, Repr

def MAX_CLARIFICATION_ATTEMPTS : Nat := 2

/- ──────── prompts.ts ──────── -/

def GREETING_MESSAGE : String :=
  "Hi! Thank you for calling QuickRupee. I\x27ll ask you a few quick questions to check your loan eligibility. Are you currently a salaried employee?"

def EMPLOYMENT_CLARIFICATION : String :=
  "Just to confirm — are you currently employed on a salary? Please say yes or no."

def EMPLOYMENT_DTMF_FALLBACK : String :=
  "I\x27m having a little trouble understanding. Please press 1 if you\x27re a salaried employee, or 2 if not."

def ASK_SALARY_MESSAGE : String :=
  "Great! What is your monthly in-hand salary?"

def SALARY_CLARIFICATION : String :=
  "I didn\x27t quite catch that. Could you tell me your monthly salary in rupees? For example, thirty thousand."

def SALARY_DTMF_FALLBACK : String :=
  "Please enter your monthly salary using the keypad, followed by the hash key."

def ASK_LOCATION_MESSAGE : String :=
  "Perfect. Which city do you currently live in?"

def LOCATION_CLARIFICATION : String :=
  "Sorry, I didn\x27t catch that. Do you live in Delhi, Mumbai, or Bangalore?"

def ELIGIBLE_MESSAGE : String :=
  "Excellent news! You\x27re eligible for a QuickRupee loan. Our team will call you back within 10 minutes to discuss your options. Thank you for your time!"

def REJECTION_MESSAGES : List (String × String) :=
  [("employment",
    "Thank you for your interest. Unfortunately, our current loan products are designed for salaried employees. We hope to expand our offerings soon. Have a great day!"),
   ("salary",
    "Thank you for sharing that. Our minimum salary requirement is twenty-five thousand rupees per month. We appreciate your interest and wish you all the best!"),
   ("location",
    "Thank you for your interest. We\x27re currently serving customers in Delhi, Mumbai, and Bangalore. We\x27re expanding to more cities soon. Have a wonderful day!"),
   ("location_unclear",
    "I\x27m sorry, I wasn\x27t able to confirm your city. Unfortunately, I can\x27t proceed without that information. Please call back and we\x27ll be happy to help. Thank you!")]

def UNEXPECTED_ERROR_MESSAGE : String :=
  "I\x27m sorry, we\x27re experiencing a technical issue. Please try calling back in a few minutes. Thank you for your patience."

def ACKNOWLEDGEMENTS : List String :=
  ["Got it.", "I see.", "Understood.", "Okay.", "Alright."]

/-- Embeds `generateAcknowledgement`: an acknowledgement roughly every third turn.
The `Math.floor(Math.random() * 5)` draw is modelled by the explicit
`pick` argument (reduced mod the list length). -/
def generateAcknowledgement (turnCount pick : Nat) : String :=
  if 0 < turnCount ∧ turnCount % 3 = 0 then
    let ack := ACKNOWLEDGEMENTS.getD (pick % ACKNOWLEDGEMENTS.length) ("")
    if ack ≠ "" then ack ++ (" ") else ""
  else ""

/-- Lookup `REJECTION_MESSAGES[reason]` with the employment fallback. -/
def rejectionMessageFor (reason : String) : String :=
  (REJECTION_MESSAGES.lookup reason).getD
    ((REJECTION_MESSAGES.lookup ("employment")).getD (""))

/- ──────── ConversationStateMachine ──────── -/

/-- The context built by the constructor. -/
def initialContext (callId phoneNumber : String) : ConversationContext where
  callId := callId
  phoneNumber := phoneNumber
  currentState := .GREETING
  previousState := none
  eligibility := { isSalaried := none, salary := none, location := none }
  turnCount := 0
  clarificationAttempts := 0
  transcript := []
  isBotSpeaking := false
  currentTurnStartNs := 0
  rejectionReason := none

/-- Embeds `startConversation`: greet and move to `ASK_EMPLOYMENT`. -/
def startConversation (ctx : ConversationContext) : StateMachineResult × ConversationContext :=
  let ctx := { ctx with currentState := .ASK_EMPLOYMENT }
  ({ response := GREETING_MESSAGE, shouldEnd := false, newState := ctx.currentState }, ctx)

/-- Embeds `rejectCall`: enter terminal `REJECTION` and record the reason. -/
def rejectCall (reason : String) (ctx : ConversationContext) :
    StateMachineResult × ConversationContext :=
  let ctx := { ctx with currentState := .REJECTION, rejectionReason := some reason }
  ({ response := rejectionMessageFor reason, shouldEnd := true, newState := ctx.currentState },
   ctx)

/-- Embeds `askClarification`: bump the attempt counter; within the cap go to
`CLARIFICATION`, past it go to `DTMF_FALLBACK` (both remember the question). -/
def askClarification (questionState : ConversationState)
    (clarificationPrompt dtmfFallbackPrompt : String) (ctx : ConversationContext) :
    StateMachineResult × ConversationContext :=
  let ctx := { ctx with clarificationAttempts := ctx.clarificationAttempts + 1 }
  if MAX_CLARIFICATION_ATTEMPTS < ctx.clarificationAttempts then
    let ctx := { ctx with previousState := some questionState, currentState := .DTMF_FALLBACK }
    ({ response := dtmfFallbackPrompt, shouldEnd := false, newState := ctx.currentState }, ctx)
  else
    let ctx := { ctx with previousState := some questionState, currentState := .CLARIFICATION }
    ({ response := clarificationPrompt, shouldEnd := false, newState := ctx.currentState }, ctx)

/-- Embeds `handleEmploymentResponse`. -/
def handleEmploymentResponse (transcript : String) (pick : Nat) (ctx : ConversationContext) :
    StateMachineResult × ConversationContext :=
  let isSalaried := employmentValidate transcript
  let ctx := { ctx with eligibility := { ctx.eligibility with isSalaried := isSalaried } }
  match isSalaried with
  | none =>
      askClarification .ASK_EMPLOYMENT EMPLOYMENT_CLARIFICATION EMPLOYMENT_DTMF_FALLBACK ctx
  | some false => rejectCall ("employment") ctx
  | some true =>
      let ctx := { ctx with currentState := .ASK_SALARY, clarificationAttempts := 0 }
      ({ response := generateAcknowledgement ctx.turnCount pick ++ ASK_SALARY_MESSAGE,
         shouldEnd := false, newState := ctx.currentState }, ctx)

/-- Embeds `handleSalaryResponse`. -/
def handleSalaryResponse (transcript : String) (pick : Nat) (ctx : ConversationContext) :
    StateMachineResult × ConversationContext :=
  let salary := salaryParse transcript
  let ctx := { ctx with eligibility := { ctx.eligibility with salary := salary } }
  match salary with
  | none => askClarification .ASK_SALARY SALARY_CLARIFICATION SALARY_DTMF_FALLBACK ctx
  | some v =>
      if v < 25000 then rejectCall ("salary") ctx
      else
        let ctx := { ctx with currentState := .ASK_LOCATION, clarificationAttempts := 0 }
        ({ response := generateAcknowledgement ctx.turnCount pick ++ ASK_LOCATION_MESSAGE,
           shouldEnd := false, newState := ctx.currentState }, ctx)

/-- Embeds `handleLocationResponse`. -/
def handleLocationResponse (transcript : String) (ctx : ConversationContext) :
    StateMachineResult × ConversationContext :=
  let location := locationMatch transcript
  let ctx := { ctx with eligibility := { ctx.eligibility with location := location } }
  match location with
  | none =>
      let ctx := { ctx with clarificationAttempts := ctx.clarificationAttempts + 1 }
      if MAX_CLARIFICATION_ATTEMPTS < ctx.clarificationAttempts then
        rejectCall ("location_unclear") ctx
      else
        let ctx := { ctx with currentState := .CLARIFICATION,
                              previousState := some .ASK_LOCATION }
        ({ response := LOCATION_CLARIFICATION, shouldEnd := false,
           newState := ctx.currentState }, ctx)
  | some loc =>
      if !isEligible loc then rejectCall ("location") ctx
      else
        let ctx := { ctx with currentState := .ELIGIBLE_CONFIRMATION }
        ({ response := ELIGIBLE_MESSAGE, shouldEnd := true, newState := ctx.currentState }, ctx)

/-- Embeds `handleClarificationResponse`: re-dispatch on `previousState`; the default
branch reports the unexpected-error message without touching the context. -/
def handleClarificationResponse (transcript : String) (pick : Nat)
    (ctx : ConversationContext) : StateMachineResult × ConversationContext :=
  match ctx.previousState with
  | some .ASK_EMPLOYMENT =>
      handleEmploymentResponse transcript pick { ctx with currentState := .ASK_EMPLOYMENT }
  | some .ASK_SALARY =>
      handleSalaryResponse transcript pick { ctx with currentState := .ASK_SALARY }
  | some .ASK_LOCATION =>
      handleLocationResponse transcript { ctx with currentState := .ASK_LOCATION }
  | _ =>
      ({ response := UNEXPECTED_ERROR_MESSAGE, shouldEnd := true, newState := .ENDED }, ctx)

/-- Embeds `handleLowConfidence`: bump the attempt counter; past the cap switch to
`DTMF_FALLBACK` with a question-specific prompt, otherwise re-ask in place. -/
def handleLowConfidence (ctx : ConversationContext) :
    StateMachineResult × ConversationContext :=
  let ctx := { ctx with clarificationAttempts := ctx.clarificationAttempts + 1 }
  if MAX_CLARIFICATION_ATTEMPTS < ctx.clarificationAttempts then
    let ctx := { ctx with previousState := some ctx.currentState,
                          currentState := .DTMF_FALLBACK }
    match ctx.previousState with
    | some .ASK_EMPLOYMENT =>
        ({ response := EMPLOYMENT_DTMF_FALLBACK, shouldEnd := false,
           newState := ctx.currentState }, ctx)
    | some .ASK_SALARY =>
        ({ response := SALARY_DTMF_FALLBACK, shouldEnd := false,
           newState := ctx.currentState }, ctx)
    | _ =>
        ({ response := "I\x27m sorry, I couldn\x27t understand. Could you please repeat that?",
           shouldEnd := false, newState := ctx.currentState }, ctx)
  else
    ({ response := "I\x27m sorry, I didn\x27t catch that clearly. Could you please repeat?",
       shouldEnd := false, newState := ctx.currentState }, ctx)

/-- Embeds `handleUserInput`: bump `turnCount`, divert low-confidence input (outside
`DTMF_FALLBACK`), then dispatch on `currentState`.  The dispatcher handles
eight of the nine states; the remaining value falls into the fail-loudly
branch (`throw new EngineError(...)`, modelled by `Except.error`). -/
def handleUserInput (transcript : String) (confidence : ℚ) (pick : Nat)
    (ctx : ConversationContext) :
    Except EngineError (StateMachineResult × ConversationContext) :=
  let ctx := { ctx with turnCount := ctx.turnCount + 1 }
  if confidence < mkRat 7 10 ∧ ctx.currentState ≠ .DTMF_FALLBACK then
    .ok (handleLowConfidence ctx)
  else
    match ctx.currentState with
    | .ASK_EMPLOYMENT => .ok (handleEmploymentResponse transcript pick ctx)
    | .ASK_SALARY => .ok (handleSalaryResponse transcript pick ctx)
    | .ASK_LOCATION => .ok (handleLocationResponse transcript ctx)
    | .CLARIFICATION => .ok (handleClarificationResponse transcript pick ctx)
    | .DTMF_FALLBACK => .ok (handleClarificationResponse transcript pick ctx)
    | .ELIGIBLE_CONFIRMATION =>
        .ok ({ response := "", shouldEnd := true, newState := .ENDED }, ctx)
    | .REJECTION => .ok ({ response := "", shouldEnd := true, newState := .ENDED }, ctx)
    | .ENDED => .ok ({ response := "", shouldEnd := true, newState := .ENDED }, ctx)
    | s =>
        .error { message := "Unexpected state: " ++ stateName s,
                 code := "ENGINE_INVALID_STATE" }

/-- Embeds `handleDTMFInput`: keyed off `previousState`; other combinations are a
defensive no-op. -/
def handleDTMFInput (digit : String) (pick : Nat) (ctx : ConversationContext) :
    StateMachineResult × ConversationContext :=
  match ctx.previousState with
  | some .ASK_EMPLOYMENT =>
      if digit = "1" then
        let ctx := { ctx with
          eligibility := { ctx.eligibility with isSalaried := some true },
          currentState := .ASK_SALARY, clarificationAttempts := 0 }
        ({ response := generateAcknowledgement ctx.turnCount pick ++ ASK_SALARY_MESSAGE,
           shouldEnd := false, newState := ctx.currentState }, ctx)
      else if digit = "2" then
        let ctx := { ctx with
          eligibility := { ctx.eligibility with isSalaried := some false } }
        rejectCall ("employment") ctx
      else
        ({ response := EMPLOYMENT_DTMF_FALLBACK, shouldEnd := false,
           newState := .DTMF_FALLBACK }, ctx)
  | some .ASK_SALARY =>
      match salaryParseDTMF digit with
      | some salary =>
          let ctx := { ctx with
            eligibility := { ctx.eligibility with salary := some salary } }
          if salary < 25000 then rejectCall ("salary") ctx
          else
            let ctx := { ctx with currentState := .ASK_LOCATION, clarificationAttempts := 0 }
            ({ response := generateAcknowledgement ctx.turnCount pick ++ ASK_LOCATION_MESSAGE,
               shouldEnd := false, newState := ctx.currentState }, ctx)
      | none =>
          ({ response := SALARY_DTMF_FALLBACK, shouldEnd := false,
             newState := .DTMF_FALLBACK }, ctx)
  | _ => ({ response := "", shouldEnd := false, newState := ctx.currentState }, ctx)

/-- Context after a voice turn; the (never exercised) exception path leaves the
context unchanged. Used to express multi-turn traces. -/
def runInput (transcript : String) (confidence : ℚ) (pick : Nat)
    (ctx : ConversationContext) : ConversationContext :=
  match handleUserInput transcript confidence pick ctx with
  | .ok (_, c) => c
  | .error _ => ctx

/-- Context after a DTMF turn. -/
def runDTMF (digit : String) (pick : Nat) (ctx : ConversationContext) : ConversationContext :=
  (handleDTMFInput digit pick ctx).2

/- ════════ Call-session orchestrator fragments ════════ -/

/-- Observable side-effect calls of one interim-transcript event. -/
structure InterimActions where
  ttsStopCalled : Bool
  queueClearCalled : Bool
  bargeInRecorded : Bool
deriving DecidableEq, Repr

def noInterimActions : InterimActions :=
  { ttsStopCalled := false, queueClearCalled := false, bargeInRecorded := false }

/-- The per-call session state touched by `handleInterimTranscript` and
`destroy`: the destroyed flag, the DTMF inactivity timer, the nullable
client references, and the state machine context. -/
structure SessionState where
  destroyed : Bool
  dtmfTimerActive : Bool
  sttConnected : Bool
  ttsConnected : Bool
  transportAttached : Bool
  machineCtx : ConversationContext
deriving DecidableEq, Repr

/-- Embeds `CallSession.handleInterimTranscript`: used exclusively for barge-in.
If the bot is speaking and the interim confidence exceeds 0.5, stop TTS
(optional chaining: only if a client is attached), clear the bot-speaking
flag, clear the transport audio queue, and record the barge-in metric.
No state-machine input handler is invoked. -/
def handleInterimTranscript (confidence : ℚ) (s : SessionState) :
    SessionState × InterimActions :=
  if s.destroyed then (s, noInterimActions)
  else if s.machineCtx.isBotSpeaking ∧ mkRat 1 2 < confidence then
    ({ s with machineCtx := { s.machineCtx with isBotSpeaking := false } },
     { ttsStopCalled := s.ttsConnected, queueClearCalled := s.transportAttached,
       bargeInRecorded := true })
  else (s, noInterimActions)

/-- Observable side-effect calls of one `destroy()` invocation. -/
structure DestroyEffects where
  timerCleared : Bool
  sttDisconnectCalled : Bool
  ttsDisconnectCalled : Bool
  gaugeDecrements : Nat
deriving DecidableEq, Repr

def noDestroyEffects : DestroyEffects :=
  { timerCleared := false, sttDisconnectCalled := false, ttsDisconnectCalled := false,
    gaugeDecrements := 0 }

/-- Embeds `CallSession.destroy`: a second call is a no-op (guard on `destroyed`);
otherwise cancel the DTMF timer, disconnect both streaming clients, null the
references, and decrement the active-call gauge (`metrics.callEnded()`). -/
def destroy (s : SessionState) : SessionState × DestroyEffects :=
  if s.destroyed then (s, noDestroyEffects)
  else
    ({ s with destroyed := true, dtmfTimerActive := false, sttConnected := false,
              ttsConnected := false, transportAttached := false },
     { timerCleared := s.dtmfTimerActive, sttDisconnectCalled := s.sttConnected,
       ttsDisconnectCalled := s.ttsConnected, gaugeDecrements := 1 })

/- ════════ Deepgram reconnection backoff ════════ -/

def maxReconnectAttempts : Nat := 5

/-- Delay computed by `DeepgramSTTClient.attemptReconnect`: the counter is
incremented first, then `delayMs = Math.pow(2, reconnectAttempts) * 1000`.
`reconnectAttempts` here is the value before the increment. -/
def attemptReconnectDelayMs (reconnectAttempts : Nat) : Nat :=
  2 ^ (reconnectAttempts + 1) * 1000

/-- Guard in the close handler: reconnect only while `reconnectAttempts <
maxReconnectAttempts`. -/
def shouldAttemptReconnect (reconnectAttempts : Nat) : Bool :=
  reconnectAttempts < maxReconnectAttempts

/-- The delays of the reconnection attempts that the guard allows. -/
def reconnectDelaysMs : List Nat :=
  (List.range maxReconnectAttempts).map attemptReconnectDelayMs

/- ════════ Outcome projections used in theorem statements ════════ -/

/-- The claim-relevant observables of one machine step. -/
structure StepOutcome where
  newState : ConversationState
  shouldEnd : Bool
  currentState : ConversationState
  rejectionReason : Option String
  clarificationAttempts : Nat
  salary : Option Nat
deriving DecidableEq, Repr

/-- Projection of a voice step onto its claim-relevant observables. -/
def outcomeOf (out : Except EngineError (StateMachineResult × ConversationContext)) :
    Option StepOutcome :=
  out.toOption.map (fun rc =>
    { newState := rc.1.newState, shouldEnd := rc.1.shouldEnd,
      currentState := rc.2.currentState, rejectionReason := rc.2.rejectionReason,
      clarificationAttempts := rc.2.clarificationAttempts,
      salary := rc.2.eligibility.salary })

/-- The same projection for a DTMF step. -/
def dtmfOutcome (rc : StateMachineResult × ConversationContext) : StepOutcome :=
  { newState := rc.1.newState, shouldEnd := rc.1.shouldEnd,
    currentState := rc.2.currentState, rejectionReason := rc.2.rejectionReason,
    clarificationAttempts := rc.2.clarificationAttempts,
    salary := rc.2.eligibility.salary }

/-- Positional constructor for `StepOutcome`, keeping statements single-line. -/
def mkOutcome (ns : ConversationState) (se : Bool) (cs : ConversationState)
    (rr : Option String) (ca : Nat) (sal : Option Nat) : StepOutcome :=
  { newState := ns, shouldEnd := se, currentState := cs, rejectionReason := rr,
    clarificationAttempts := ca, salary := sal }

/- ════════════════════════ Theorems ════════════════════════ -/

/- ──────── Helper lemmas ──────── -/


theorem matchDirect_mem {n c : String} (h : matchDirect n = some c) : c ∈ METRO_CITIES :=
  List.mem_of_find?_eq_some h

theorem matchAlias_mem {n c : String} (h : matchAlias n = some c) :
    c ∈ CITY_ALIASES.map Prod.snd := by
  unfold matchAlias at h
  rcases Option.map_eq_some'.mp h with ⟨p, hp, hpc⟩
  exact hpc ▸ List.mem_map_of_mem Prod.snd (List.mem_of_find?_eq_some hp)

theorem fuzzyMetro_mem {w c : String} (h : fuzzyMetro w = some c) : c ∈ METRO_CITIES :=
  List.mem_of_find?_eq_some h

theorem fuzzyAlias_mem {w c : String} (h : fuzzyAlias w = some c) :
    c ∈ CITY_ALIASES.map Prod.snd := by
  unfold fuzzyAlias at h
  rcases Option.map_eq_some'.mp h with ⟨p, hp, hpc⟩
  exact hpc ▸ List.mem_map_of_mem Prod.snd (List.mem_of_find?_eq_some hp)

theorem matchFuzzy_mem {c : String} :
    ∀ {ws : List String}, matchFuzzy ws = some c →
      c ∈ METRO_CITIES ∨ c ∈ CITY_ALIASES.map Prod.snd := by
  intro ws
  induction ws with
  | nil => intro h; exact absurd h (by simp [matchFuzzy])
  | cons w ws ih =>
      intro h
      unfold matchFuzzy at h
      split at h
      · exact ih h
      · split at h
        · rename_i hm
          exact Or.inl (Option.some_injective _ h ▸ fuzzyMetro_mem hm)
        · split at h
          · rename_i ha
            exact Or.inr (Option.some_injective _ h ▸ fuzzyAlias_mem ha)
          · exact ih h

theorem locationMatch_mem {s c : String} (h : locationMatch s = some c) :
    c ∈ METRO_CITIES ∨ c ∈ CITY_ALIASES.map Prod.snd := by
  simp only [locationMatch] at h
  split at h
  · rename_i hd
    exact Or.inl (Option.some_injective _ h ▸ matchDirect_mem hd)
  · split at h
    · rename_i ha
      exact Or.inr (Option.some_injective _ h ▸ matchAlias_mem ha)
    · exact matchFuzzy_mem h

theorem eligible_of_mem {c : String}
    (h : c ∈ METRO_CITIES ∨ c ∈ CITY_ALIASES.map Prod.snd) : isEligible c = true := by
  rcases h with h | h
  · fin_cases h <;> decide
  · fin_cases h <;> decide

theorem locationMatch_eligible {s c : String} (h : locationMatch s = some c) :
    isEligible c = true :=
  eligible_of_mem (locationMatch_mem h)

theorem handleLocationResponse_cap (ctx : ConversationContext) {t : String}
    (hm : locationMatch t = none)
    (hcap : MAX_CLARIFICATION_ATTEMPTS ≤ ctx.clarificationAttempts) :
    (handleLocationResponse t ctx).1.newState = .REJECTION ∧
    (handleLocationResponse t ctx).1.shouldEnd = true ∧
    (handleLocationResponse t ctx).2.currentState = .REJECTION ∧
    (handleLocationResponse t ctx).2.rejectionReason = some ("location_unclear") ∧
    (handleLocationResponse t ctx).2.clarificationAttempts = ctx.clarificationAttempts + 1 ∧
    (handleLocationResponse t ctx).2.eligibility.salary = ctx.eligibility.salary := by
  have hlt : MAX_CLARIFICATION_ATTEMPTS < ctx.clarificationAttempts + 1 :=
    Nat.lt_succ_of_le hcap
  simp only [handleLocationResponse, hm, if_pos hlt, rejectCall]
  exact ⟨trivial, trivial, trivial, trivial, trivial, trivial⟩


/-- Evaluating `outcomeOf` on a successful step is the DTMF projection of its payload. -/
theorem outcomeOf_ok (rc : StateMachineResult × ConversationContext) :
    outcomeOf (.ok rc) = some (dtmfOutcome rc) := rfl

/- ──────── Claim theorems ──────── -/

/-- Claim C1 (code bug, evaluated at the failing input): the claim says a
low-confidence input in an `ASK_*` state within the attempt cap sets
`previousState` to the question state and `currentState := CLARIFICATION`.
The code (`handleLowConfidence`) only increments `clarificationAttempts` and
re-asks in place: after the greeting, input "yes" at confidence 0.5 leaves
the machine in `ASK_EMPLOYMENT` with `previousState = none`, returning the
generic re-ask prompt with `shouldEnd = false` — no `CLARIFICATION`
transition happens, contradicting the module doc comment
"Low confidence STT → CLARIFICATION". -/
theorem C1_low_confidence_stays_in_place :
    outcomeOf (handleUserInput ("yes") (mkRat 1 2) 0
        (startConversation (initialContext ("c1") ("p"))).2) =
      some (mkOutcome .ASK_EMPLOYMENT false .ASK_EMPLOYMENT none 1 none) ∧
    (handleUserInput ("yes") (mkRat 1 2) 0
        (startConversation (initialContext ("c1") ("p"))).2).toOption.map
      (fun rc => rc.2.previousState) = some none ∧
    (handleUserInput ("yes") (mkRat 1 2) 0
        (startConversation (initialContext ("c1") ("p"))).2).toOption.map
      (fun rc => rc.1.response) =
      some ("I\x27m sorry, I didn\x27t catch that clearly. Could you please repeat?") := by
  refine ⟨by decide, by decide, ?_⟩
  rfl

/-- Claim C2 (counterexample): three consecutive low-confidence inputs to the
location question do NOT reach `REJECTION` with reason `location_unclear` —
the third one exceeds the cap inside `handleLowConfidence`, which transitions
to `DTMF_FALLBACK` (its default branch), recording no rejection. -/
theorem C2_counterexample_low_confidence_location_to_dtmf :
    (runInput ("mumble") (mkRat 1 2) 0
      (runInput ("mumble") (mkRat 1 2) 0
        (runInput ("mumble") (mkRat 1 2) 0
          (runInput ("thirty thousand") (mkRat 9 10) 0
            (runInput ("yes") (mkRat 9 10) 0
              (startConversation (initialContext ("c2") ("p"))).2))))).currentState =
        .DTMF_FALLBACK ∧
    (runInput ("mumble") (mkRat 1 2) 0
      (runInput ("mumble") (mkRat 1 2) 0
        (runInput ("mumble") (mkRat 1 2) 0
          (runInput ("thirty thousand") (mkRat 9 10) 0
            (runInput ("yes") (mkRat 9 10) 0
              (startConversation (initialContext ("c2") ("p"))).2))))).previousState =
        some .ASK_LOCATION ∧
    (runInput ("mumble") (mkRat 1 2) 0
      (runInput ("mumble") (mkRat 1 2) 0
        (runInput ("mumble") (mkRat 1 2) 0
          (runInput ("thirty thousand") (mkRat 9 10) 0
            (runInput ("yes") (mkRat 9 10) 0
              (startConversation (initialContext ("c2") ("p"))).2))))).rejectionReason =
        none := by decide

/-- Claim C2 (amended): only the unmatched-city path of the location question
rejects on exceeding the cap.  Whenever the city matcher fails on a confident
input — in `ASK_LOCATION`, or re-dispatched from `CLARIFICATION` with
`previousState = ASK_LOCATION` — and the incremented `clarificationAttempts`
exceeds the maximum (2), the machine transitions directly to terminal
`REJECTION` with `rejectionReason = location_unclear` (the low-confidence
overflow path instead goes to `DTMF_FALLBACK`, per the counterexample). -/
theorem C2_location_cap_unmatched_city_rejects
    (ctx : ConversationContext) (t : String) (conf : ℚ) (pick : Nat)
    (hm : locationMatch t = none)
    (hconf : ¬ conf < mkRat 7 10)
    (hcap : MAX_CLARIFICATION_ATTEMPTS ≤ ctx.clarificationAttempts)
    (hcase : ctx.currentState = .ASK_LOCATION ∨
      (ctx.currentState = .CLARIFICATION ∧ ctx.previousState = some .ASK_LOCATION)) :
    outcomeOf (handleUserInput t conf pick ctx) =
      some (mkOutcome .REJECTION true .REJECTION (some ("location_unclear"))
        (ctx.clarificationAttempts + 1) ctx.eligibility.salary) := by
  rcases hcase with h | ⟨h, hp⟩
  · obtain ⟨e1, e2, e3, e4, e5, e6⟩ :=
      handleLocationResponse_cap
        { ctx with turnCount := ctx.turnCount + 1,
                   currentState := ConversationState.ASK_LOCATION }
        hm hcap
    simp only [handleUserInput, outcomeOf, h]
    rw [if_neg (fun hh => hconf hh.1)]
    simp only [Except.toOption, Option.map_some', Option.some.injEq, mkOutcome,
               StepOutcome.mk.injEq]
    exact ⟨e1, e2, e3, e4, e5, e6⟩
  · obtain ⟨e1, e2, e3, e4, e5, e6⟩ :=
      handleLocationResponse_cap
        { ctx with turnCount := ctx.turnCount + 1,
                   currentState := ConversationState.ASK_LOCATION,
                   previousState := some ConversationState.ASK_LOCATION }
        hm hcap
    simp only [handleUserInput, outcomeOf, h, handleClarificationResponse, hp]
    rw [if_neg (fun hh => hconf hh.1)]
    simp only [Except.toOption, Option.map_some', Option.some.injEq, mkOutcome,
               StepOutcome.mk.injEq]
    exact ⟨e1, e2, e3, e4, e5, e6⟩

/-- Witness for C2: a context in `ASK_LOCATION` with two prior attempts and the
unmatched confident input "xyz" is rejected with `location_unclear`. -/
theorem C2_location_cap_witness :
    outcomeOf (handleUserInput ("xyz") (mkRat 9 10) 0
        { initialContext ("w2") ("p") with
            currentState := ConversationState.ASK_LOCATION, clarificationAttempts := 2 }) =
      some (mkOutcome .REJECTION true .REJECTION (some ("location_unclear")) 3 none) :=
  C2_location_cap_unmatched_city_rejects
    { initialContext ("w2") ("p") with
        currentState := ConversationState.ASK_LOCATION, clarificationAttempts := 2 }
    ("xyz") (mkRat 9 10) 0 (by decide) (by decide) (by decide) (Or.inl rfl)

/-- Claim C3: in `ASK_SALARY`, a confident input whose parsed salary is `v`
rejects with reason `salary` (terminal, `shouldEnd`) when `v < 25000`, and
advances to `ASK_LOCATION` resetting `clarificationAttempts` to 0 when
`v ≥ 25000`; in particular the sequence ["yes", "twenty thousand"] at
confidence 0.9 ends in `REJECTION` with reason `salary` (parsed 20000). -/
theorem C3_salary_threshold :
    (∀ (ctx : ConversationContext) (t : String) (conf : ℚ) (pick : Nat) (v : Nat),
      ctx.currentState = .ASK_SALARY →
      ¬ conf < mkRat 7 10 →
      salaryParse t = some v →
      (v < 25000 →
        outcomeOf (handleUserInput t conf pick ctx) =
          some (mkOutcome .REJECTION true .REJECTION (some ("salary"))
            ctx.clarificationAttempts (some v))) ∧
      (¬ v < 25000 →
        outcomeOf (handleUserInput t conf pick ctx) =
          some (mkOutcome .ASK_LOCATION false .ASK_LOCATION ctx.rejectionReason
            0 (some v)))) ∧
    outcomeOf (handleUserInput ("twenty thousand") (mkRat 9 10) 0
        (runInput ("yes") (mkRat 9 10) 0
          (startConversation (initialContext ("c3") ("p"))).2)) =
      some (mkOutcome .REJECTION true .REJECTION (some ("salary")) 0 (some 20000)) := by
  constructor
  · intro ctx t conf pick v hstate hconf hp
    constructor
    · intro hv
      simp only [handleUserInput, hstate]
      rw [if_neg (fun hh => hconf hh.1)]
      rw [outcomeOf_ok]
      simp [handleSalaryResponse, hp, hv, rejectCall, dtmfOutcome, mkOutcome]
    · intro hv
      simp only [handleUserInput, hstate]
      rw [if_neg (fun hh => hconf hh.1)]
      rw [outcomeOf_ok]
      simp [handleSalaryResponse, hp, hv, dtmfOutcome, mkOutcome]
  · decide

/-- Witness for C3: a context in `ASK_SALARY` with the confident input
"thirty thousand" (parsed 30000 ≥ 25000) advances to `ASK_LOCATION`. -/
theorem C3_salary_threshold_witness :
    outcomeOf (handleUserInput ("thirty thousand") (mkRat 9 10) 0
        { initialContext ("w3") ("p") with
            currentState := ConversationState.ASK_SALARY }) =
      some (mkOutcome .ASK_LOCATION false .ASK_LOCATION none 0 (some 30000)) :=
  ((C3_salary_threshold.1
      { initialContext ("w3") ("p") with currentState := ConversationState.ASK_SALARY }
      ("thirty thousand") (mkRat 9 10) 0 30000 rfl (by decide) (by decide)).2 (by decide))

/-- Claim C4: every canonical result of `LocationMatcher.match` — by direct
substring, alias, or fuzzy match — is an eligible metro city; consequently
`handleLocationResponse` never newly writes `rejectionReason = location`:
that rejection branch is unreachable for any input. -/
theorem C4_location_rejection_unreachable :
    (∀ s c, locationMatch s = some c → isEligible c = true) ∧
    (∀ (ctx : ConversationContext) (t : String),
      (handleLocationResponse t ctx).2.rejectionReason = some ("location") →
      ctx.rejectionReason = some ("location")) := by
  constructor
  · exact fun s c h => locationMatch_eligible h
  · intro ctx t h
    rcases hm : locationMatch t with _ | loc
    · by_cases hcap : MAX_CLARIFICATION_ATTEMPTS < ctx.clarificationAttempts + 1
      · simp [handleLocationResponse, hm, hcap, rejectCall] at h
      · simp only [handleLocationResponse, hm, if_neg hcap] at h
        exact h
    · have he := locationMatch_eligible hm
      simp only [handleLocationResponse, hm, he] at h
      simpa using h

/-- Witness for C4: "mumbai" matches itself and is eligible. -/
theorem C4_location_witness :
    locationMatch ("mumbai") = some ("mumbai") ∧ isEligible ("mumbai") = true :=
  ⟨by decide, C4_location_rejection_unreachable.1 ("mumbai") ("mumbai") (by decide)⟩

/-- Claim C5: a DTMF digit string handled with `previousState = ASK_SALARY` is
parsed as a literal integer — non-digit characters are ignored, and the same
`[1000, 10000000]` sanity range as the voice parser applies; a parsed value
below 25000 yields terminal `REJECTION` with reason `salary`, any other
parsed value advances to `ASK_LOCATION` with `eligibility.salary` set. -/
theorem C5_dtmf_salary_path :
    (∀ ds : String, salaryParseDTMF ds = salaryParseDTMF ⟨ds.data.filter Char.isDigit⟩) ∧
    (∀ (ds : String) (v : Nat), salaryParseDTMF ds = some v →
      SALARY_MIN ≤ v ∧ v ≤ SALARY_MAX) ∧
    (∀ (ctx : ConversationContext) (ds : String) (pick : Nat) (v : Nat),
      ctx.previousState = some .ASK_SALARY →
      salaryParseDTMF ds = some v →
      (v < 25000 →
        dtmfOutcome (handleDTMFInput ds pick ctx) =
          mkOutcome .REJECTION true .REJECTION (some ("salary"))
            ctx.clarificationAttempts (some v)) ∧
      (¬ v < 25000 →
        dtmfOutcome (handleDTMFInput ds pick ctx) =
          mkOutcome .ASK_LOCATION false .ASK_LOCATION ctx.rejectionReason 0 (some v))) := by
  refine ⟨?_, ?_, ?_⟩
  · intro ds
    unfold salaryParseDTMF
    rw [show (String.mk (ds.data.filter Char.isDigit)).data = ds.data.filter Char.isDigit
          from rfl]
    rw [show (ds.data.filter Char.isDigit).filter Char.isDigit = ds.data.filter Char.isDigit
          by simp [List.filter_filter]]
  · intro ds v h
    simp only [salaryParseDTMF] at h
    split at h
    · exact absurd h (by simp)
    · split at h
      · rename_i hrange
        cases h
        exact hrange
      · exact absurd h (by simp)
  · intro ctx ds pick v hprev hp
    constructor
    · intro hv
      simp [handleDTMFInput, hprev, hp, hv, dtmfOutcome, mkOutcome, rejectCall]
    · intro hv
      simp [handleDTMFInput, hprev, hp, hv, dtmfOutcome, mkOutcome]

/-- Witness for C5: digits "35000#" with `previousState = ASK_SALARY` advance
to `ASK_LOCATION` with salary 35000. -/
theorem C5_dtmf_salary_witness :
    dtmfOutcome (handleDTMFInput ("35000#") 0
        { initialContext ("w5") ("p") with
            previousState := some ConversationState.ASK_SALARY,
            currentState := ConversationState.DTMF_FALLBACK }) =
      mkOutcome .ASK_LOCATION false .ASK_LOCATION none 0 (some 35000) :=
  ((C5_dtmf_salary_path.2.2
      { initialContext ("w5") ("p") with
          previousState := some ConversationState.ASK_SALARY,
          currentState := ConversationState.DTMF_FALLBACK }
      ("35000#") 0 35000 rfl (by decide)).2 (by decide))

/-- Claim C6 (counterexample): `GREETING` is one of the nine defined states,
yet a confident input dispatched there raises the `EngineError` — so "no
exception is raised for every input in any of the 9 defined states" is false
on the code. -/
theorem C6_counterexample_greeting_raises :
    (handleUserInput ("hello") (mkRat 9 10) 0 (initialContext ("c6") ("p"))).isOk
      = false := by decide

/-- Claim C6 (amended): `handleUserInput` raises an exception iff the main
dispatcher is reached in `GREETING` — the one defined state the dispatcher
does not handle (confidence not below 0.7; `GREETING` is never
`DTMF_FALLBACK`).  In the other eight states — including
validator-ambiguous input, which is routed through the clarification path —
no exception is ever raised. -/
theorem C6_exception_iff_greeting_dispatch :
    ∀ (ctx : ConversationContext) (t : String) (conf : ℚ) (pick : Nat),
      (handleUserInput t conf pick ctx).isOk = false ↔
        (ctx.currentState = .GREETING ∧ ¬ conf < mkRat 7 10) := by
  intro ctx t conf pick
  by_cases hc : conf < mkRat 7 10 <;>
    cases h : ctx.currentState <;>
      simp [handleUserInput, h, hc, Except.isOk, Except.toBool]

/-- Witness for C6: `GREETING` at confidence 0.8 errors (the iff applied at a
concrete input, hypotheses discharged). -/
theorem C6_exception_witness :
    (handleUserInput ("hi") (mkRat 8 10) 0 (initialContext ("w6") ("p"))).isOk = false :=
  (C6_exception_iff_greeting_dispatch (initialContext ("w6") ("p"))
    ("hi") (mkRat 8 10) 0).mpr ⟨rfl, by decide⟩

/-- Claim C7: an interim transcript never invokes a state-machine input
handler — the dialogue state, turn count, transcript, eligibility and
rejection reason are untouched — and an interim with confidence above 0.5
while the bot is speaking stops TTS, clears the transport queue, records the
barge-in metric and resets `isBotSpeaking`, so a second interim of the same
burst performs no further cancellation: exactly once per burst. -/
theorem C7_interim_barge_in_once :
    (∀ (conf : ℚ) (s : SessionState),
      (handleInterimTranscript conf s).1.machineCtx.currentState =
          s.machineCtx.currentState ∧
      (handleInterimTranscript conf s).1.machineCtx.turnCount = s.machineCtx.turnCount ∧
      (handleInterimTranscript conf s).1.machineCtx.transcript = s.machineCtx.transcript ∧
      (handleInterimTranscript conf s).1.machineCtx.eligibility =
          s.machineCtx.eligibility ∧
      (handleInterimTranscript conf s).1.machineCtx.rejectionReason =
          s.machineCtx.rejectionReason) ∧
    (∀ (conf conf2 : ℚ) (s : SessionState),
      s.destroyed = false →
      s.machineCtx.isBotSpeaking = true →
      mkRat 1 2 < conf →
      s.ttsConnected = true →
      s.transportAttached = true →
      (handleInterimTranscript conf s).2 =
        { ttsStopCalled := true, queueClearCalled := true, bargeInRecorded := true } ∧
      (handleInterimTranscript conf s).1.machineCtx.isBotSpeaking = false ∧
      (handleInterimTranscript conf2 (handleInterimTranscript conf s).1).2 =
        noInterimActions) := by
  constructor
  · intro conf s
    by_cases hd : s.destroyed
    · simp [handleInterimTranscript, hd]
    · by_cases hb : (s.machineCtx.isBotSpeaking ∧ mkRat 1 2 < conf)
      · simp [handleInterimTranscript, hd, hb]
      · simp [handleInterimTranscript, hd, hb]
  · intro conf conf2 s hd hbot hconf htts htr
    simp [handleInterimTranscript, hd, hbot, hconf, htts, htr, noInterimActions]

/-- Witness for C7: a live session speaking, interim confidence 0.9: barge-in
actions fire. -/
theorem C7_interim_witness :
    (handleInterimTranscript (mkRat 9 10)
        { destroyed := false, dtmfTimerActive := false, sttConnected := true,
          ttsConnected := true, transportAttached := true,
          machineCtx := { initialContext ("w7") ("p") with isBotSpeaking := true } }).2 =
      { ttsStopCalled := true, queueClearCalled := true, bargeInRecorded := true } :=
  (C7_interim_barge_in_once.2 (mkRat 9 10) (mkRat 9 10)
    { destroyed := false, dtmfTimerActive := false, sttConnected := true,
      ttsConnected := true, transportAttached := true,
      machineCtx := { initialContext ("w7") ("p") with isBotSpeaking := true } }
    rfl rfl (by decide) rfl rfl).1

/-- Claim C8 (code bug, evaluated at the failing sequence): `handleDTMFInput`
has no terminal-state guard, so after a DTMF salary rejection
(`rejectionReason = salary`) further DTMF digits re-advance the call out of
`REJECTION`, and three unmatched city answers then overwrite the reason with
`location_unclear`: `rejectionReason` is written twice, with different
values, in one call — contradicting the write-once invariant. -/
theorem C8_rejection_reason_overwritten :
    (runDTMF ("20000#") 0
      (runInput ("mumble") (mkRat 1 2) 0
        (runInput ("mumble") (mkRat 1 2) 0
          (runInput ("mumble") (mkRat 1 2) 0
            (runInput ("yes") (mkRat 9 10) 0
              (startConversation (initialContext ("c8") ("p"))).2))))).rejectionReason =
        some ("salary") ∧
    (runInput ("xyz") (mkRat 9 10) 0
      (runInput ("xyz") (mkRat 9 10) 0
        (runInput ("xyz") (mkRat 9 10) 0
          (runDTMF ("30000#") 0
            (runDTMF ("20000#") 0
              (runInput ("mumble") (mkRat 1 2) 0
                (runInput ("mumble") (mkRat 1 2) 0
                  (runInput ("mumble") (mkRat 1 2) 0
                    (runInput ("yes") (mkRat 9 10) 0
                      (startConversation
                        (initialContext ("c8") ("p"))).2))))))))).rejectionReason =
        some ("location_unclear") := by decide

/-- Claim C9: `destroy()` is idempotent — the second call returns the same
session state with no further effects; on a live session the first call
cancels the DTMF timer, disconnects both streaming clients, and decrements
the active-call gauge exactly once. -/
theorem C9_destroy_idempotent :
    ∀ s : SessionState,
      (destroy (destroy s).1).1 = (destroy s).1 ∧
      (destroy (destroy s).1).2 = noDestroyEffects ∧
      (s.destroyed = false →
        (destroy s).2.gaugeDecrements = 1 ∧
        (destroy s).1.destroyed = true ∧
        (destroy s).1.dtmfTimerActive = false ∧
        (destroy s).1.sttConnected = false ∧
        (destroy s).1.ttsConnected = false ∧
        (destroy s).2.timerCleared = s.dtmfTimerActive ∧
        (destroy s).2.sttDisconnectCalled = s.sttConnected ∧
        (destroy s).2.ttsDisconnectCalled = s.ttsConnected) := by
  intro s
  by_cases hd : s.destroyed <;> simp [destroy, hd, noDestroyEffects]

/-- Witness for C9: a live session with an armed timer and both clients
connected is torn down exactly once; the second `destroy` is a no-op. -/
theorem C9_destroy_witness :
    (destroy
        { destroyed := false, dtmfTimerActive := true, sttConnected := true,
          ttsConnected := true, transportAttached := true,
          machineCtx := initialContext ("w9") ("p") }).2.gaugeDecrements = 1 ∧
    (destroy (destroy
        { destroyed := false, dtmfTimerActive := true, sttConnected := true,
          ttsConnected := true, transportAttached := true,
          machineCtx := initialContext ("w9") ("p") }).1).2 = noDestroyEffects :=
  ⟨((C9_destroy_idempotent
      { destroyed := false, dtmfTimerActive := true, sttConnected := true,
        ttsConnected := true, transportAttached := true,
        machineCtx := initialContext ("w9") ("p") }).2.2 rfl).1,
   (C9_destroy_idempotent
      { destroyed := false, dtmfTimerActive := true, sttConnected := true,
        ttsConnected := true, transportAttached := true,
        machineCtx := initialContext ("w9") ("p") }).2.1⟩

/-- Claim C10 (code bug, evaluated on the code): the claim — and the method
doc comment "Delays: 1s, 2s, 4s, 8s, 16s" — say the delay before attempt n
is 2^(n-1) seconds.  The code increments the counter before computing
`Math.pow(2, reconnectAttempts) * 1000`, so the actual delays are
2s, 4s, 8s, 16s, 32s: the first delay is 2000 ms, not 1000 ms.  The
five-attempt cap itself holds: after the fifth attempt the guard refuses. -/
theorem C10_reconnect_backoff_delays :
    reconnectDelaysMs = [2000, 4000, 8000, 16000, 32000] ∧
    attemptReconnectDelayMs 0 ≠ 1000 ∧
    shouldAttemptReconnect 5 = false := by decide

end VB
